import Mathlib

/-!
Shallow embedding of the EGL image module of glutin
(src/glutin/src/api/egl/image.rs) together with the small amount of
surrounding context it uses (the EGL constants referenced by name from the
generated bindings, the `Version` ordering, and the error taxonomy).

Conventions: EGLint / EGLAttrib values are modelled as `Int`; the opaque
`EGLClientBuffer` and `EGLImage` pointers as `Int` (with `std::ptr::null()`
as `0`); `BorrowedFd` as its raw `Int` file descriptor (`as_raw_fd`); the
set of display extension strings as a `List String` queried with
`List.contains` (exact, case-sensitive string match).  The native driver is
a parameter: `create_image_full` takes an oracle giving the outcome of the
single native creation call and also returns the list of native creation
calls that were issued, so that pre-native validation failures are visible
as an empty call list.
-/

namespace Glutin

/-- Modelled from the spec: the `Version` type (`crate::context::Version`) is
not among the provided sources; §3 of the spec fixes its comparison:
"version comparison is lexicographic (major, then minor)", matching the
derived `Ord` on a `(major, minor)` struct. -/
structure Version where
  major : Nat
  minor : Nat
deriving DecidableEq, Repr

/-- Lexicographic strict order on versions, major first. -/
def Version.lt (a b : Version) : Bool :=
  a.major < b.major || (a.major == b.major && a.minor < b.minor)

/-- `a >= b` for the (total) lexicographic order on versions. -/
def Version.ge (a b : Version) : Bool :=
  !Version.lt a b

namespace egl

/- EGL constants referenced by name in image.rs.  Their numeric values come
from the Khronos EGL registry via the generated bindings file
(`glutin_egl_sys`, `include!(.../egl_bindings.rs)`, not part of the provided
sources); the values below are the registry-specified ones. -/

def TRUE : Int := 1
def NONE : Int := 0x3038
def WIDTH : Int := 0x3057
def HEIGHT : Int := 0x3056
def IMAGE_PRESERVED : Int := 0x30D2
def NATIVE_PIXMAP_KHR : Int := 0x30B0
def LINUX_DMA_BUF_EXT : Int := 0x3270
def LINUX_DRM_FOURCC_EXT : Int := 0x3271
def DMA_BUF_PLANE0_FD_EXT : Int := 0x3272
def DMA_BUF_PLANE0_OFFSET_EXT : Int := 0x3273
def DMA_BUF_PLANE0_PITCH_EXT : Int := 0x3274
def DMA_BUF_PLANE1_FD_EXT : Int := 0x3275
def DMA_BUF_PLANE1_OFFSET_EXT : Int := 0x3276
def DMA_BUF_PLANE1_PITCH_EXT : Int := 0x3277
def DMA_BUF_PLANE2_FD_EXT : Int := 0x3278
def DMA_BUF_PLANE2_OFFSET_EXT : Int := 0x3279
def DMA_BUF_PLANE2_PITCH_EXT : Int := 0x327A
def NO_CONTEXT : Int := 0

end egl

/- Extension name strings tested by `create_image` (image.rs lines 122, 137,
138, 139, 153, 160). -/

def extKHRImage : String := "EGL_KHR_image"
def extKHRImageBase : String := "EGL_KHR_image_base"
def extKHRNativePixmap : String := "EGL_KHR_native_pixmap"
def extEXTDmaBufImport : String := "EGL_EXT_image_dma_buf_import"

/-- Error taxonomy.  `NotSupported` carries the static reason string exactly
as in image.rs.  The repository's `error` module is not among the provided
sources, so the native-failure arm is modelled from the spec: §7 gives
`NativeCallFailed(code)` for a driver call that returns a failure status
after validation passed (`check_error` in the egl module root). -/
inductive ErrorKind where
  | NotSupported (reason : String)
  | NativeCallFailed (code : Int)
deriving DecidableEq, Repr

/- The reason strings of image.rs (Rust `\`-newline continuations joined). -/

def floorReason : String := "eglCreateImage() requires at least EGL 1.2"
def preserveReason : String :=
  "The IMAGE_PRESERVED attribute is not supported before EGL 1.5 without EGL_KHR_image_base extension"
def pixmapReason : String :=
  "NativePixmap requires EGL 1.5, or EGL 1.2 with EGL_KHR_image or EGL_KHR_image_base and EGL_KHR_native_pixmap"
def dmaImportReason : String := "EGL_EXT_image_dma_buf_import is not supported"
def dmaVersionReason : String :=
  "EGL_EXT_image_dma_buf_import requires EGL 1.5, or EGL 1.2 with EGL_KHR_image_base"

/-- A single dma_buf plane (image.rs lines 48-58); the `BorrowedFd` is
modelled by its raw file descriptor. -/
structure DmaBufPlane where
  fd : Int
  offset : Int
  pitch : Int
deriving DecidableEq, Repr

/-- `ImageBuffer` (image.rs lines 63-87). -/
inductive ImageBuffer where
  | NativePixmap (buffer : Int)
  | DmaBuf (plane0 : DmaBufPlane) (width : Int) (height : Int) (drm_fourcc : Int)
      (plane1 : Option DmaBufPlane) (plane2 : Option DmaBufPlane)
deriving DecidableEq, Repr

/-- The capability-relevant part of the shared `DisplayInner` that
`create_image` and `Drop for Image` read: the negotiated version and the
display extension set.  (The raw display pointer and the function table are
opaque to every property treated here.) -/
structure DisplayInner where
  version : Version
  display_extensions : List String
deriving DecidableEq, Repr

/-- The `Image` resource handle (image.rs lines 14-18): the raw `EGLImage`
plus the display it back-references. -/
structure Image where
  display : DisplayInner
  raw : Int
deriving DecidableEq, Repr

/-- The two native creation entry points of image.rs lines 209-218. -/
inductive CreateEntry where
  | CreateImage
  | CreateImageKHR
deriving DecidableEq, Repr

/-- The two native teardown entry points of image.rs lines 32-43. -/
inductive DestroyEntry where
  | DestroyImage
  | DestroyImageKHR
deriving DecidableEq, Repr

/-- One native creation call as issued by image.rs lines 209-218: the chosen
entry point and the arguments handed to it (the display pointer is omitted
as opaque).  On the `CreateImage` path the `EGLint` attributes are widened
to `EGLAttrib` (line 210), which leaves every value unchanged, so one `Int`
list serves both paths. -/
structure NativeCreateCall where
  entry : CreateEntry
  ctx : Int
  target : Int
  buffer : Int
  attrib : List Int
deriving DecidableEq, Repr

/-- `Vec::insert(n, a)` on the attribute vector (image.rs lines 130-131). -/
def listInsertAt (n : Nat) (a : Int) (l : List Int) : List Int :=
  l.take n ++ a :: l.drop n

/-- The attribute vector as it stands right after the preserve block
(image.rs lines 116-132): it starts empty, and when `image_preserved` was
requested (and survived the legality check) the pair is head-inserted at
positions 0 and 1. -/
def preserveAttrib (image_preserved : Bool) : List Int :=
  if image_preserved then
    listInsertAt 1 egl.TRUE (listInsertAt 0 egl.IMAGE_PRESERVED [])
  else []

/-- The three pushes for one dma_buf plane (image.rs lines 176-181 and the
matching plane1/plane2 blocks). -/
def planeAttribs (fdKey offsetKey pitchKey : Int) (p : DmaBufPlane) : List Int :=
  [fdKey, p.fd, offsetKey, p.offset, pitchKey, p.pitch]

/-- An optional plane contributes its three pairs when present and nothing
at all when absent (image.rs lines 183-199). -/
def optPlaneAttribs (fdKey offsetKey pitchKey : Int) :
    Option DmaBufPlane → List Int
  | some p => planeAttribs fdKey offsetKey pitchKey p
  | none => []

/-- The attribute pairs pushed by the DmaBuf arm (image.rs lines 168-199), in
source push order: width, height, fourcc, then plane0, plane1, plane2. -/
def dmaBufAttribList (plane0 : DmaBufPlane) (width height drm_fourcc : Int)
    (plane1 plane2 : Option DmaBufPlane) : List Int :=
  [egl.WIDTH, width, egl.HEIGHT, height, egl.LINUX_DRM_FOURCC_EXT, drm_fourcc] ++
    planeAttribs egl.DMA_BUF_PLANE0_FD_EXT egl.DMA_BUF_PLANE0_OFFSET_EXT
      egl.DMA_BUF_PLANE0_PITCH_EXT plane0 ++
    optPlaneAttribs egl.DMA_BUF_PLANE1_FD_EXT egl.DMA_BUF_PLANE1_OFFSET_EXT
      egl.DMA_BUF_PLANE1_PITCH_EXT plane1 ++
    optPlaneAttribs egl.DMA_BUF_PLANE2_FD_EXT egl.DMA_BUF_PLANE2_OFFSET_EXT
      egl.DMA_BUF_PLANE2_PITCH_EXT plane2

/-- image.rs lines 207-218: append the `egl::NONE` sentinel, then select the
core entry point when `version >= 1.5` and the KHR-suffixed one otherwise. -/
def finishDispatch (inner : DisplayInner) (attrib : List Int)
    (buffer target ctx : Int) : NativeCreateCall :=
  { entry := if Version.ge inner.version ⟨1, 5⟩ then .CreateImage else .CreateImageKHR
    ctx := ctx
    target := target
    buffer := buffer
    attrib := attrib ++ [egl.NONE] }

/-- Shallow embedding of `Display::create_image` (image.rs lines 103-218) up
to and including selection of the native entry point: either the
`NotSupported` validation error (each early `return Err(...)` of the
source, with its reason string) or the one native creation call the code
goes on to issue.  The trailing `check_error` step is added in
`create_image_full`. -/
def create_image_dispatch (inner : DisplayInner) (buffer : ImageBuffer)
    (image_preserved : Bool) : Except ErrorKind NativeCreateCall :=
  -- lines 110-114: version floor
  if Version.lt inner.version ⟨1, 2⟩ then
    .error (.NotSupported floorReason)
  -- lines 120-129: IMAGE_PRESERVED legality
  else if image_preserved &&
      (Version.lt inner.version ⟨1, 5⟩ &&
        !inner.display_extensions.contains extKHRImageBase) then
    .error (.NotSupported preserveReason)
  else
    match buffer with
    | .NativePixmap buf =>
      -- lines 136-146
      if Version.lt inner.version ⟨1, 5⟩ &&
          !(inner.display_extensions.contains extKHRImage ||
            (inner.display_extensions.contains extKHRImageBase &&
              inner.display_extensions.contains extKHRNativePixmap)) then
        .error (.NotSupported pixmapReason)
      else
        -- line 148
        .ok (finishDispatch inner (preserveAttrib image_preserved) buf
          egl.NATIVE_PIXMAP_KHR egl.NO_CONTEXT)
    | .DmaBuf plane0 width height drm_fourcc plane1 plane2 =>
      -- lines 153-158
      if !inner.display_extensions.contains extEXTDmaBufImport then
        .error (.NotSupported dmaImportReason)
      -- lines 159-167
      else if Version.lt inner.version ⟨1, 5⟩ &&
          !inner.display_extensions.contains extKHRImageBase then
        .error (.NotSupported dmaVersionReason)
      else
        -- lines 168-203: pushes, then null buffer and the EXT target
        .ok (finishDispatch inner
          (preserveAttrib image_preserved ++
            dmaBufAttribList plane0 width height drm_fourcc plane1 plane2)
          0 egl.LINUX_DMA_BUF_EXT egl.NO_CONTEXT)

/-- Outcome of the one native creation call, as reported by the trailing
`check_error` (line 220): success with the returned raw image, or a native
error code. -/
inductive NativeOutcome where
  | ok (raw : Int)
  | fail (code : Int)
deriving DecidableEq, Repr

/-- The whole of `create_image` (image.rs lines 103-221): validation and
encoding, then — only if they passed — the single native creation call,
whose outcome the `native` oracle supplies, checked by `check_error` and on
success wrapped into an `Image` holding the display.  The second component
is the list of native creation calls issued during the invocation. -/
def create_image_full (inner : DisplayInner) (buffer : ImageBuffer)
    (image_preserved : Bool) (native : NativeCreateCall → NativeOutcome) :
    Except ErrorKind Image × List NativeCreateCall :=
  match create_image_dispatch inner buffer image_preserved with
  | .error e => (.error e, [])
  | .ok call =>
    match native call with
    | .ok raw => (.ok { display := inner, raw := raw }, [call])
    | .fail code => (.error (.NativeCallFailed code), [call])

/-- `impl Drop for Image` (image.rs lines 32-43): the single native teardown
call a dropped `Image` value issues, `DestroyImage` when the display
version is at least 1.5 and `DestroyImageKHR` otherwise. -/
def Image.dropCall (img : Image) : DestroyEntry :=
  if Version.ge img.display.version ⟨1, 5⟩ then .DestroyImage else .DestroyImageKHR

/-- Split a finalized attribute list into its key-value pairs; the odd
trailing sentinel element is left over and contributes no pair. -/
def attribPairs : List Int → List (Int × Int)
  | k :: v :: rest => (k, v) :: attribPairs rest
  | _ => []

/-- The keys of a finalized attribute list. -/
def attribKeys (l : List Int) : List Int :=
  (attribPairs l).map Prod.fst

/-- Lifecycle events of `Image` values in a client program.  `createOk` is a
`create_image` call that returned `Ok(Image)`; `createErr` one that
returned `Err` (no value exists, image.rs line 220); `cloneImage` is a call
to the derived `Clone` (image.rs line 14), which yields a second owned
value carrying the same raw handle; `dropImage` is the end of one owned
value's scope, which runs `Drop` (image.rs lines 32-43) exactly once for
that value and issues exactly one native teardown call. -/
inductive LifeEvent where
  | createOk
  | createErr
  | cloneImage
  | dropImage
deriving DecidableEq, Repr

/-- Live `Image` value count and cumulative native teardown call count. -/
structure LifeState where
  live : Nat
  teardowns : Nat
deriving DecidableEq, Repr

/-- One lifecycle step: creates and clones add an owned value, failed
creations add nothing, every drop of an owned value issues one teardown. -/
def lifeStep : LifeState → LifeEvent → LifeState
  | s, .createOk => { s with live := s.live + 1 }
  | s, .createErr => s
  | s, .cloneImage => { s with live := s.live + 1 }
  | s, .dropImage => { live := s.live - 1, teardowns := s.teardowns + 1 }

/-- Run a client program's image lifecycle from the empty state. -/
def runLife (evs : List LifeEvent) : LifeState :=
  evs.foldl lifeStep { live := 0, teardowns := 0 }

/-- The number of successfully constructed images in a program. -/
def createdCount (evs : List LifeEvent) : Nat :=
  evs.countP (· == LifeEvent.createOk)


/-! General lemmas about the embedding, shared by the claim theorems. -/

/-- Whenever the DmaBuf arm reaches dispatch, the attribute list is the
preserve prefix, the dma_buf pairs in push order, and the sentinel; and the
entry point is the version-selected one. -/
theorem dispatch_dmaBuf_ok_shape (c : DisplayInner) (p0 : DmaBufPlane)
    (w h f : Int) (p1 p2 : Option DmaBufPlane) (pres : Bool)
    (call : NativeCreateCall)
    (hok : create_image_dispatch c (.DmaBuf p0 w h f p1 p2) pres = .ok call) :
    call.attrib = preserveAttrib pres ++ dmaBufAttribList p0 w h f p1 p2 ++ [egl.NONE]
      ∧ call.entry =
        (if Version.ge c.version ⟨1, 5⟩ then .CreateImage else .CreateImageKHR) := by
  simp only [create_image_dispatch] at hok
  split at hok
  · simp at hok
  · split at hok
    · simp at hok
    · split at hok
      · simp at hok
      · split at hok
        · simp at hok
        · simp only [Except.ok.injEq] at hok
          subst hok
          exact ⟨by simp [finishDispatch], by simp [finishDispatch]⟩

/-- Whenever the NativePixmap arm reaches dispatch, the attribute list is the
preserve prefix followed by the sentinel, and the entry point is the
version-selected one. -/
theorem dispatch_nativePixmap_ok_shape (c : DisplayInner) (buf : Int)
    (pres : Bool) (call : NativeCreateCall)
    (hok : create_image_dispatch c (.NativePixmap buf) pres = .ok call) :
    call.attrib = preserveAttrib pres ++ [egl.NONE]
      ∧ call.entry =
        (if Version.ge c.version ⟨1, 5⟩ then .CreateImage else .CreateImageKHR) := by
  simp only [create_image_dispatch] at hok
  split at hok
  · simp at hok
  · split at hok
    · simp at hok
    · split at hok
      · simp at hok
      · simp only [Except.ok.injEq] at hok
        subst hok
        exact ⟨by simp [finishDispatch], by simp [finishDispatch]⟩

/-- A dispatched call always selects the entry point by the 1.5 version
test, whatever the buffer kind. -/
theorem dispatch_ok_entry (c : DisplayInner) (b : ImageBuffer) (pres : Bool)
    (call : NativeCreateCall)
    (hok : create_image_dispatch c b pres = .ok call) :
    call.entry =
      (if Version.ge c.version ⟨1, 5⟩ then .CreateImage else .CreateImageKHR) := by
  cases b with
  | NativePixmap buf => exact (dispatch_nativePixmap_ok_shape c buf pres call hok).2
  | DmaBuf p0 w h f p1 p2 => exact (dispatch_dmaBuf_ok_shape c p0 w h f p1 p2 pres call hok).2

/-- Every validation failure of `create_image` is a `NotSupported` error. -/
theorem dispatch_error_notSupported (c : DisplayInner) (b : ImageBuffer)
    (pres : Bool) (e : ErrorKind)
    (herr : create_image_dispatch c b pres = .error e) : ∃ r, e = .NotSupported r := by
  cases b <;>
    (simp only [create_image_dispatch] at herr
     repeat' split at herr) <;>
    first
      | (simp only [Except.error.injEq] at herr; exact ⟨_, herr.symm⟩)
      | simp at herr


/-- When a preserve-flagged request reaches dispatch, the same request
without the flag also reaches dispatch, and the flagged attribute list is
the unflagged one with the preserve pair prepended. -/
theorem dispatch_preserve_shape (c : DisplayInner) (b : ImageBuffer)
    (call : NativeCreateCall)
    (hok : create_image_dispatch c b true = .ok call) :
    ∃ rest, create_image_dispatch c b false = .ok rest
      ∧ call.attrib = egl.IMAGE_PRESERVED :: egl.TRUE :: rest.attrib := by
  cases b with
  | NativePixmap buf =>
    simp only [create_image_dispatch] at hok ⊢
    split at hok
    next h1 => simp at hok
    next h1 =>
      split at hok
      next h2 => simp at hok
      next h2 =>
        split at hok
        next h3 => simp at hok
        next h3 =>
          simp only [Except.ok.injEq] at hok
          subst hok
          refine ⟨finishDispatch c (preserveAttrib false) buf
            egl.NATIVE_PIXMAP_KHR egl.NO_CONTEXT, ?_, ?_⟩
          · simp only [if_neg h1, if_neg h3]
            simp
          · simp [finishDispatch, preserveAttrib, listInsertAt]
  | DmaBuf p0 w h f p1 p2 =>
    simp only [create_image_dispatch] at hok ⊢
    split at hok
    next h1 => simp at hok
    next h1 =>
      split at hok
      next h2 => simp at hok
      next h2 =>
        split at hok
        next h3 => simp at hok
        next h3 =>
          split at hok
          next h4 => simp at hok
          next h4 =>
            simp only [Except.ok.injEq] at hok
            subst hok
            refine ⟨finishDispatch c
              (preserveAttrib false ++ dmaBufAttribList p0 w h f p1 p2)
              0 egl.LINUX_DMA_BUF_EXT egl.NO_CONTEXT, ?_, ?_⟩
            · simp only [if_neg h1, if_neg h3, if_neg h4]
              simp
            · simp [finishDispatch, preserveAttrib, listInsertAt]


/-! Claim theorems. -/

/-- C1 (code evidence): dropping all owned `Image` values after one
successful `create_image` and one `.clone()` issues two native teardown
calls, not one — the derived `Clone` (image.rs line 14) duplicates the raw
handle and `Drop` (lines 32-43) runs once per owned value — while a failed
construction issues zero.  This refutes "exactly N teardown calls" in the
presence of clones. -/
theorem clone_drop_double_teardown :
    createdCount [LifeEvent.createOk, LifeEvent.cloneImage,
        LifeEvent.dropImage, LifeEvent.dropImage] = 1
      ∧ runLife [LifeEvent.createOk, LifeEvent.cloneImage,
          LifeEvent.dropImage, LifeEvent.dropImage]
          = { live := 0, teardowns := 2 }
      ∧ runLife [LifeEvent.createErr] = { live := 0, teardowns := 0 } :=
  ⟨rfl, rfl, rfl⟩

/-- C2 counterexample: at version 1.0 (below 1.5) with `EGL_KHR_image`
present, the claimed equivalence fails — the extension disjunct holds, yet
the NativePixmap request does not pass validation: it fails the 1.2
version floor. -/
theorem native_pixmap_below_floor_counterexample :
    [extKHRImage].contains extKHRImage = true
      ∧ Version.lt ⟨1, 0⟩ ⟨1, 5⟩ = true
      ∧ create_image_dispatch ⟨⟨1, 0⟩, [extKHRImage]⟩ (.NativePixmap 7) false
          = .error (.NotSupported floorReason) :=
  ⟨by decide, by decide, rfl⟩

/-- C2 (amended): scenario 1 — version 1.4 with `EGL_KHR_image_base` and
`EGL_KHR_native_pixmap` dispatches a NativePixmap request via the KHR entry
point; scenario 2 - version 1.2 with no extensions fails `NotSupported`
with the reason naming the requirement; and for every capability set with
version at least 1.2 and below 1.5, a NativePixmap request passes
validation iff `EGL_KHR_image` is present, or both `EGL_KHR_image_base`
and `EGL_KHR_native_pixmap` are. -/
theorem native_pixmap_validation (c : DisplayInner) (buf : Int)
    (h12 : Version.lt c.version ⟨1, 2⟩ = false)
    (h15 : Version.lt c.version ⟨1, 5⟩ = true) :
    (∃ call, create_image_dispatch ⟨⟨1, 4⟩, [extKHRImageBase, extKHRNativePixmap]⟩
        (.NativePixmap buf) false = .ok call ∧ call.entry = .CreateImageKHR)
      ∧ create_image_dispatch ⟨⟨1, 2⟩, []⟩ (.NativePixmap buf) false
          = .error (.NotSupported pixmapReason)
      ∧ ((∃ call, create_image_dispatch c (.NativePixmap buf) false = .ok call) ↔
          (extKHRImage ∈ c.display_extensions ∨
            (extKHRImageBase ∈ c.display_extensions ∧
              extKHRNativePixmap ∈ c.display_extensions))) := by
  refine ⟨⟨_, rfl, rfl⟩, rfl, ?_⟩
  unfold create_image_dispatch
  simp [h12, h15]
  by_cases he1 : extKHRImage ∈ c.display_extensions <;>
    by_cases he2 : extKHRImageBase ∈ c.display_extensions <;>
      by_cases he3 : extKHRNativePixmap ∈ c.display_extensions <;>
        simp [he1, he2, he3]

/-- C2 witness: version 1.3 with `EGL_KHR_image` alone passes NativePixmap
validation, by the amended equivalence. -/
theorem native_pixmap_validation_witness :
    ∃ call, create_image_dispatch ⟨⟨1, 3⟩, [extKHRImage]⟩
      (.NativePixmap 5) false = .ok call :=
  ((native_pixmap_validation ⟨⟨1, 3⟩, [extKHRImage]⟩ 5 (by decide)
    (by decide)).2.2).mpr (Or.inl (by decide))

/-- C5: whenever a preserve-flagged request passes validation, the encoded
attribute list has the preserve key and value at positions 0 and 1, and the
remainder is exactly the list the same request encodes without the flag
(all other pairs after it, in request order). -/
theorem preserve_flag_head_position (c : DisplayInner) (b : ImageBuffer)
    (call : NativeCreateCall)
    (hok : create_image_dispatch c b true = .ok call) :
    call.attrib.take 2 = [egl.IMAGE_PRESERVED, egl.TRUE]
      ∧ ∃ rest, create_image_dispatch c b false = .ok rest
          ∧ call.attrib = egl.IMAGE_PRESERVED :: egl.TRUE :: rest.attrib := by
  obtain ⟨rest, hrest, hattr⟩ := dispatch_preserve_shape c b call hok
  exact ⟨by rw [hattr]; rfl, rest, hrest, hattr⟩

/-- C5 witness at version 1.5 with a pixmap request. -/
theorem preserve_flag_head_position_witness :
    ({ entry := .CreateImage, ctx := egl.NO_CONTEXT, target := egl.NATIVE_PIXMAP_KHR,
        buffer := 3, attrib := [egl.IMAGE_PRESERVED, egl.TRUE, egl.NONE] }
      : NativeCreateCall).attrib.take 2 = [egl.IMAGE_PRESERVED, egl.TRUE] :=
  (preserve_flag_head_position ⟨⟨1, 5⟩, []⟩ (.NativePixmap 3) _ rfl).1

/-- C7: below version 1.2 every request fails with the version-floor
`NotSupported` reason, whatever the buffer kind and preserve flag — so the
floor failure is surfaced before the preserve-flag and per-source checks
even for requests that would also fail those. -/
theorem version_floor_failure_first (c : DisplayInner) (b : ImageBuffer)
    (pres : Bool) (h : Version.lt c.version ⟨1, 2⟩ = true) :
    create_image_dispatch c b pres = .error (.NotSupported floorReason) := by
  unfold create_image_dispatch
  simp [h]

/-- C7 witness: a version-1.1 request that would also fail the preserve
check and the dma_buf import check still reports the version floor. -/
theorem version_floor_failure_first_witness :
    create_image_dispatch ⟨⟨1, 1⟩, []⟩ (.DmaBuf ⟨3, 0, 64⟩ 2 2 0 none none) true
      = .error (.NotSupported floorReason) :=
  version_floor_failure_first ⟨⟨1, 1⟩, []⟩ (.DmaBuf ⟨3, 0, 64⟩ 2 2 0 none none)
    true (by decide)

/-- C9: a request that reaches dispatch issues exactly one native creation
call, through `CreateImage` iff the version is at least 1.5 and through
`CreateImageKHR` otherwise; and a dropped `Image` issues `DestroyImage` iff
its display version is at least 1.5, `DestroyImageKHR` otherwise. -/
theorem entry_point_selection (c : DisplayInner) (b : ImageBuffer) (pres : Bool)
    (native : NativeCreateCall → NativeOutcome) :
    (∀ call, create_image_dispatch c b pres = .ok call →
        (create_image_full c b pres native).2 = [call]
          ∧ (call.entry = .CreateImage ↔ Version.ge c.version ⟨1, 5⟩ = true)
          ∧ (call.entry = .CreateImageKHR ↔ Version.ge c.version ⟨1, 5⟩ = false))
      ∧ ∀ img : Image,
          (img.dropCall = .DestroyImage ↔ Version.ge img.display.version ⟨1, 5⟩ = true)
            ∧ (img.dropCall = .DestroyImageKHR
                ↔ Version.ge img.display.version ⟨1, 5⟩ = false) := by
  constructor
  · intro call hok
    have hentry := dispatch_ok_entry c b pres call hok
    refine ⟨?_, ?_, ?_⟩
    · unfold create_image_full
      rw [hok]
      cases hn : native call <;> simp [hn]
    · cases hge : Version.ge c.version ⟨1, 5⟩ <;> simp [hge] at hentry <;> simp [hentry, hge]
    · cases hge : Version.ge c.version ⟨1, 5⟩ <;> simp [hge] at hentry <;> simp [hentry, hge]
  · intro img
    unfold Image.dropCall
    cases hge : Version.ge img.display.version ⟨1, 5⟩ <;> simp [hge]

/-- C9 witness: at version 1.4 the KHR-suffixed entry points are selected
and the creation call list is that single call. -/
theorem entry_point_selection_witness :
    (create_image_full ⟨⟨1, 4⟩, [extKHRImage]⟩ (.NativePixmap 4) false
        (fun _ => .ok 11)).2
      = [{ entry := .CreateImageKHR, ctx := egl.NO_CONTEXT,
            target := egl.NATIVE_PIXMAP_KHR, buffer := 4, attrib := [egl.NONE] }] :=
  ((entry_point_selection ⟨⟨1, 4⟩, [extKHRImage]⟩ (.NativePixmap 4) false
    (fun _ => .ok 11)).1 _ rfl).1


/-- C3: at version 1.5, a DmaBuf request with plane0 and plane1 (no plane2,
no preserve flag) that reaches dispatch encodes exactly width, height,
fourcc, plane0's and plane1's (fd, offset, pitch) pairs in that order — 9
pairs — then the sentinel; and a request carrying only plane0 encodes no
plane1/plane2 keys at all. -/
theorem dmabuf_attrib_encoding (exts : List String) (p0 p1 : DmaBufPlane)
    (w h f : Int) (call : NativeCreateCall)
    (c2 : DisplayInner) (q0 : DmaBufPlane) (w2 h2 f2 : Int) (pres : Bool)
    (call2 : NativeCreateCall)
    (hok : create_image_dispatch ⟨⟨1, 5⟩, exts⟩
      (.DmaBuf p0 w h f (some p1) none) false = .ok call)
    (hok2 : create_image_dispatch c2 (.DmaBuf q0 w2 h2 f2 none none) pres
      = .ok call2) :
    call.attrib = [egl.WIDTH, w, egl.HEIGHT, h, egl.LINUX_DRM_FOURCC_EXT, f,
        egl.DMA_BUF_PLANE0_FD_EXT, p0.fd, egl.DMA_BUF_PLANE0_OFFSET_EXT, p0.offset,
        egl.DMA_BUF_PLANE0_PITCH_EXT, p0.pitch,
        egl.DMA_BUF_PLANE1_FD_EXT, p1.fd, egl.DMA_BUF_PLANE1_OFFSET_EXT, p1.offset,
        egl.DMA_BUF_PLANE1_PITCH_EXT, p1.pitch, egl.NONE]
      ∧ (attribPairs call.attrib).length = 9
      ∧ egl.DMA_BUF_PLANE1_FD_EXT ∉ attribKeys call2.attrib
      ∧ egl.DMA_BUF_PLANE1_OFFSET_EXT ∉ attribKeys call2.attrib
      ∧ egl.DMA_BUF_PLANE1_PITCH_EXT ∉ attribKeys call2.attrib
      ∧ egl.DMA_BUF_PLANE2_FD_EXT ∉ attribKeys call2.attrib
      ∧ egl.DMA_BUF_PLANE2_OFFSET_EXT ∉ attribKeys call2.attrib
      ∧ egl.DMA_BUF_PLANE2_PITCH_EXT ∉ attribKeys call2.attrib := by
  have e1 : call.attrib = [egl.WIDTH, w, egl.HEIGHT, h, egl.LINUX_DRM_FOURCC_EXT, f,
      egl.DMA_BUF_PLANE0_FD_EXT, p0.fd, egl.DMA_BUF_PLANE0_OFFSET_EXT, p0.offset,
      egl.DMA_BUF_PLANE0_PITCH_EXT, p0.pitch,
      egl.DMA_BUF_PLANE1_FD_EXT, p1.fd, egl.DMA_BUF_PLANE1_OFFSET_EXT, p1.offset,
      egl.DMA_BUF_PLANE1_PITCH_EXT, p1.pitch, egl.NONE] := by
    have := (dispatch_dmaBuf_ok_shape _ _ _ _ _ _ _ _ _ hok).1
    simpa [preserveAttrib, dmaBufAttribList, planeAttribs, optPlaneAttribs] using this
  have e2 : call2.attrib = preserveAttrib pres ++
      [egl.WIDTH, w2, egl.HEIGHT, h2, egl.LINUX_DRM_FOURCC_EXT, f2,
        egl.DMA_BUF_PLANE0_FD_EXT, q0.fd, egl.DMA_BUF_PLANE0_OFFSET_EXT, q0.offset,
        egl.DMA_BUF_PLANE0_PITCH_EXT, q0.pitch, egl.NONE] := by
    have := (dispatch_dmaBuf_ok_shape _ _ _ _ _ _ _ _ _ hok2).1
    simpa [dmaBufAttribList, planeAttribs, optPlaneAttribs] using this
  refine ⟨e1, by rw [e1]; rfl, ?_, ?_, ?_, ?_, ?_, ?_⟩ <;>
    (rw [e2]; cases pres <;>
      simp [preserveAttrib, listInsertAt, attribKeys, attribPairs] <;> decide)

/-- C3 witness: the concrete two-plane encoding at version 1.5 has 9 pairs
before the sentinel. -/
theorem dmabuf_attrib_encoding_witness :
    ∃ call, create_image_dispatch ⟨⟨1, 5⟩, [extEXTDmaBufImport]⟩
        (.DmaBuf ⟨10, 11, 12⟩ 100 200 33 (some ⟨20, 21, 22⟩) none) false = .ok call
      ∧ (attribPairs call.attrib).length = 9 :=
  ⟨_, rfl, (dmabuf_attrib_encoding [extEXTDmaBufImport] ⟨10, 11, 12⟩ ⟨20, 21, 22⟩
    100 200 33 _ ⟨⟨1, 5⟩, [extEXTDmaBufImport]⟩ ⟨10, 11, 12⟩ 4 4 7 false _
    rfl rfl).2.1⟩

/-- C4 counterexample: at version 1.3 with `EGL_KHR_image_base` present (so
the right-hand side of the claimed equivalence is false) a preserve-flagged
NativePixmap request still fails `NotSupported` — at the per-source pixmap
check, not the preserve check. -/
theorem preserve_iff_counterexample :
    extKHRImageBase ∈ ([extKHRImageBase] : List String)
      ∧ create_image_dispatch ⟨⟨1, 3⟩, [extKHRImageBase]⟩ (.NativePixmap 2) true
          = .error (.NotSupported pixmapReason) :=
  ⟨by decide, rfl⟩

/-- C4 (amended): for requests past the 1.2 floor, a preserve-flagged
request fails with the preserve-specific `NotSupported` error iff the
version is below 1.5 and `EGL_KHR_image_base` is absent; in particular at
version 1.2 with no extensions every preserve-flagged request fails so. -/
theorem preserve_check_characterization (c : DisplayInner) (b : ImageBuffer)
    (h12 : Version.lt c.version ⟨1, 2⟩ = false) :
    (create_image_dispatch c b true = .error (.NotSupported preserveReason) ↔
        (Version.lt c.version ⟨1, 5⟩ = true ∧
          extKHRImageBase ∉ c.display_extensions))
      ∧ ∀ b', create_image_dispatch ⟨⟨1, 2⟩, []⟩ b' true
          = .error (.NotSupported preserveReason) := by
  constructor
  · by_cases hc : Version.lt c.version ⟨1, 5⟩ = true ∧
        extKHRImageBase ∉ c.display_extensions
    · refine ⟨fun _ => hc, fun _ => ?_⟩
      unfold create_image_dispatch
      simp [h12, hc.1, hc.2]
    · refine ⟨fun hfail => ?_, fun hh => absurd hh hc⟩
      exfalso
      cases b with
      | NativePixmap buf =>
        unfold create_image_dispatch at hfail
        simp [h12, hc] at hfail
        repeat' split at hfail
        all_goals simp_all [preserveReason, pixmapReason]
      | DmaBuf p0 w h f p1 p2 =>
        unfold create_image_dispatch at hfail
        simp [h12, hc] at hfail
        repeat' split at hfail
        all_goals simp_all [preserveReason, dmaImportReason, dmaVersionReason]
  · intro b'
    cases b' <;> rfl

/-- C4 witness: at version 1.2 with no extensions a preserve-flagged DmaBuf
request fails with the preserve-specific error. -/
theorem preserve_check_characterization_witness :
    create_image_dispatch ⟨⟨1, 2⟩, []⟩ (.DmaBuf ⟨5, 0, 32⟩ 8 8 1 none none) true
      = .error (.NotSupported preserveReason) :=
  (preserve_check_characterization ⟨⟨1, 2⟩, []⟩ (.NativePixmap 0) (by decide)).2
    (.DmaBuf ⟨5, 0, 32⟩ 8 8 1 none none)

/-- C6 counterexample: at version 1.1, with both
`EGL_EXT_image_dma_buf_import` and `EGL_KHR_image_base` present (so the
claimed equivalence's right-hand side holds), a DmaBuf request still fails
validation — at the 1.2 version floor. -/
theorem dmabuf_validation_counterexample :
    extEXTDmaBufImport ∈ ([extEXTDmaBufImport, extKHRImageBase] : List String)
      ∧ extKHRImageBase ∈ ([extEXTDmaBufImport, extKHRImageBase] : List String)
      ∧ create_image_dispatch ⟨⟨1, 1⟩, [extEXTDmaBufImport, extKHRImageBase]⟩
          (.DmaBuf ⟨3, 0, 64⟩ 4 4 2 none none) false
          = .error (.NotSupported floorReason) :=
  ⟨by decide, by decide, rfl⟩

/-- C6 (amended): for capability sets with version at least 1.2, a DmaBuf
request passes validation iff `EGL_EXT_image_dma_buf_import` is present
and (the version is at least 1.5 or `EGL_KHR_image_base` is present); when
that condition fails, the call returns `NotSupported` and no native call is
issued. -/
theorem dmabuf_validation (c : DisplayInner) (p0 : DmaBufPlane) (w h f : Int)
    (p1 p2 : Option DmaBufPlane) (pres : Bool)
    (native : NativeCreateCall → NativeOutcome)
    (h12 : Version.lt c.version ⟨1, 2⟩ = false) :
    ((∃ call, create_image_dispatch c (.DmaBuf p0 w h f p1 p2) pres = .ok call) ↔
        (extEXTDmaBufImport ∈ c.display_extensions ∧
          (Version.ge c.version ⟨1, 5⟩ = true ∨
            extKHRImageBase ∈ c.display_extensions)))
      ∧ (¬ (extEXTDmaBufImport ∈ c.display_extensions ∧
            (Version.ge c.version ⟨1, 5⟩ = true ∨
              extKHRImageBase ∈ c.display_extensions)) →
          (∃ r, (create_image_full c (.DmaBuf p0 w h f p1 p2) pres native).1
              = .error (.NotSupported r))
            ∧ (create_image_full c (.DmaBuf p0 w h f p1 p2) pres native).2 = []) := by
  have hge : Version.ge c.version ⟨1, 5⟩ = !Version.lt c.version ⟨1, 5⟩ := rfl
  cases pres <;>
    cases h15 : Version.lt c.version ⟨1, 5⟩ <;>
      by_cases himp : extEXTDmaBufImport ∈ c.display_extensions <;>
        by_cases hbase : extKHRImageBase ∈ c.display_extensions <;>
          constructor <;>
            simp [create_image_dispatch, create_image_full, hge, h12, h15,
              himp, hbase]

/-- C6 witness: at version 1.2 with no extensions the DmaBuf request fails
before any native call — the native call list is empty. -/
theorem dmabuf_validation_witness :
    (create_image_full ⟨⟨1, 2⟩, []⟩ (.DmaBuf ⟨3, 0, 64⟩ 4 4 2 none none) false
        (fun _ => .ok 5)).2 = [] :=
  ((dmabuf_validation ⟨⟨1, 2⟩, []⟩ ⟨3, 0, 64⟩ 4 4 2 none none false
    (fun _ => .ok 5) (by decide)).2 (by decide)).2

/-- C8: a `NotSupported` result is produced with no native call issued; a
returned `Image` comes from exactly one successful native call and wraps
its raw result together with the owning display; and an error result never
coexists with a returned handle. -/
theorem create_image_no_stray_resource (c : DisplayInner) (b : ImageBuffer) (pres : Bool)
    (native : NativeCreateCall → NativeOutcome) :
    (∀ r, (create_image_full c b pres native).1 = .error (.NotSupported r) →
        (create_image_full c b pres native).2 = [])
      ∧ (∀ img, (create_image_full c b pres native).1 = .ok img →
          ∃ call, (create_image_full c b pres native).2 = [call]
            ∧ native call = .ok img.raw ∧ img.display = c)
      ∧ (∀ e, (create_image_full c b pres native).1 = .error e →
          ∀ img, (create_image_full c b pres native).1 ≠ .ok img) := by
  unfold create_image_full
  cases hd : create_image_dispatch c b pres with
  | error e => simp
  | ok call =>
    cases hn : native call with
    | ok raw =>
      simp only [hn]
      refine ⟨fun r hr => by simp at hr, ?_, fun e he img => by simp at he⟩
      intro img himg
      simp only [Except.ok.injEq] at himg
      subst himg
      exact ⟨call, rfl, by rw [hn], rfl⟩
    | fail code =>
      simp only [hn]
      refine ⟨fun r hr => by simp at hr, fun img himg => by simp at himg,
        fun e he img => by simp⟩

/-- C8 witness: a request rejected by validation issues no native call. -/
theorem create_image_no_stray_resource_witness :
    (create_image_full ⟨⟨1, 2⟩, []⟩ (.NativePixmap 7) false (fun _ => .ok 1)).2 = [] :=
  (create_image_no_stray_resource ⟨⟨1, 2⟩, []⟩ (.NativePixmap 7) false (fun _ => .ok 1)).1
    pixmapReason rfl

/-- C10 counterexample: at version 1.1 with `EGL_KHR_image` and without
`EGL_KHR_image_base`, the preserve-unset NativePixmap request does not pass
validation as the claim asserts — it fails the 1.2 version floor. -/
theorem preserve_only_base_counterexample :
    Version.lt ⟨1, 1⟩ ⟨1, 5⟩ = true
      ∧ extKHRImage ∈ ([extKHRImage] : List String)
      ∧ extKHRImageBase ∉ ([extKHRImage] : List String)
      ∧ create_image_dispatch ⟨⟨1, 1⟩, [extKHRImage]⟩ (.NativePixmap 9) false
          = .error (.NotSupported floorReason) :=
  ⟨by decide, by decide, by decide, rfl⟩

/-- C10 (amended): for capability sets with version in [1.2, 1.5) whose
extensions contain `EGL_KHR_image` but not `EGL_KHR_image_base`, a
preserve-flagged NativePixmap request fails with the preserve-specific
`NotSupported` error while the identical request without the flag passes
validation: the preserve check tests only `EGL_KHR_image_base`. -/
theorem preserve_only_tests_base (c : DisplayInner) (buf : Int)
    (h12 : Version.lt c.version ⟨1, 2⟩ = false)
    (h15 : Version.lt c.version ⟨1, 5⟩ = true)
    (hik : extKHRImage ∈ c.display_extensions)
    (hnb : extKHRImageBase ∉ c.display_extensions) :
    create_image_dispatch c (.NativePixmap buf) true
        = .error (.NotSupported preserveReason)
      ∧ ∃ call, create_image_dispatch c (.NativePixmap buf) false = .ok call := by
  constructor
  · unfold create_image_dispatch
    simp [h12, h15, hnb]
  · unfold create_image_dispatch
    simp [h12, h15, hik, hnb]

/-- C10 witness at version 1.4 with `EGL_KHR_image` alone. -/
theorem preserve_only_tests_base_witness :
    create_image_dispatch ⟨⟨1, 4⟩, [extKHRImage]⟩ (.NativePixmap 9) true
      = .error (.NotSupported preserveReason) :=
  (preserve_only_tests_base ⟨⟨1, 4⟩, [extKHRImage]⟩ 9 (by decide) (by decide)
    (by decide) (by decide)).1

end Glutin
